import Mathlib

/-!
Shallow embedding of the flight search automation script (src/designs.py).

The script drives a browser through a flight-search form and scrapes the
results page.  Every interaction with the page goes through a small set of
primitives (wait-until-condition, find-element, click, navigate, screenshot),
each of which either succeeds or raises.  We embed the script by making the
page's behaviour explicit: an environment record carries, for each query the
code performs, whether (and with what payload) it succeeds.  The control flow
of each Python function is then translated statement by statement into a pure
Lean function over that environment, with exceptions modelled by
`Except String` and observable side effects (clicks, navigations, diagnostic
snapshots, printed notices, wait-budget reassignments) recorded in an explicit
event trace.

Modelling conventions:
* a `wait.until(...)` or `find_element(...)` call is one boolean/optional
  field of the environment (timing is abstracted into success/failure);
* diagnostic-only effects (screenshots, page-source dumps, log lines,
  reading `driver.current_url`) never fail; they are recorded as trace
  events — they are write-only outputs the script never reads back;
* `self.wait = WebDriverWait(self.driver, n)` is modelled by a
  `waitBudgetSet n` trace event and, where a claim needs it, an explicit
  budget component of the result;
* text payloads are `String`s; `.strip()` is the `strip` function below
  (whitespace removed from both ends, as Python's `str.strip()` does);
* calendar dates are day numbers (`Nat`); `date + timedelta(days=1)` is
  `date + 1`.
-/

namespace FlightSearch

/-- Whitespace stripping on the underlying character list: drop leading
whitespace, then trailing whitespace. -/
def stripChars (cs : List Char) : List Char :=
  ((cs.dropWhile Char.isWhitespace).reverse.dropWhile Char.isWhitespace).reverse

/-- Python's `str.strip()`: remove whitespace from both ends. -/
def strip (s : String) : String :=
  ⟨stripChars s.data⟩

/-! ### Extraction stage (`extract_top_flights`, designs.py lines 229-353) -/

/-- One flight card on the results page, as seen through the element queries
`extract_top_flights` performs against it.  Each field is the (trimmable) text
returned by the corresponding `find_element(...).text` call, or `none` when
that query raises. -/
structure Card where
  /-- primary duration locator (line 282): class contains "duration", or text
  containing both "h" and "m" -/
  durationPrimary : Option String
  /-- results of the two fallback duration locators tried in order
  (lines 286-297): "travel-time" then "flight-duration" -/
  durationFallbackResults : List (Option String)
  /-- airline locator (line 305): class "airline" / "carrier" /
  data-testid "airline" / class "flight-name" -/
  airlinePrimary : Option String
  /-- price locator (line 323): class contains "price" or text contains the
  rupee sign -/
  pricePrimary : Option String
deriving Repr, DecidableEq

/-- Hard-coded airline fallback list (designs.py line 309). -/
def airlineFallbackValues : List String := ["Indigo", "Air India", "SpiceJet"]

/-- First successful query result of a list of fallback locators
(the `for xpath in fallback_xpaths: ... break` loop, lines 292-297). -/
def firstFound : List (Option String) → Option String
  | [] => none
  | some s :: _ => some s
  | none :: rest => firstFound rest

/-- Duration resolution for one card (designs.py lines 280-301).
The primary locator's text is used as-is (stripped); on failure the fallback
locators are tried in order and, if none yields a non-empty string
(`if not duration:`), the default "3" is used. -/
def resolveDuration (c : Card) : String :=
  match c.durationPrimary with
  | some s => strip s
  | none =>
    match firstFound c.durationFallbackResults with
    | some s => if strip s = "" then "3" else strip s
    | none => "3"

/-- Airline resolution for one card (designs.py lines 303-319).  On failure of
the primary locator the fallback loop assigns the first element of
`airlineFallbackValues` and breaks immediately (the assignment cannot raise),
so the loop always yields "Indigo"; the `if 'airline' not in locals()`
default "Unknown" is reachable only for an empty fallback list. -/
def resolveAirline (c : Card) : String :=
  match c.airlinePrimary with
  | some s => strip s
  | none => (airlineFallbackValues.head?).getD "Unknown"

/-- Price resolution for one card (designs.py lines 321-326): the locator's
stripped text, or the placeholder "N/A" when the query raises. -/
def resolvePrice (c : Card) : String :=
  match c.pricePrimary with
  | some s => strip s
  | none => "N/A"

/-- Per-card record construction (designs.py lines 275-334): a row
`[from, to, duration, airline - price]` is appended only when the resolved
price differs from the placeholder; otherwise the card is skipped. -/
def extract_card (from_city to_city : String) (c : Card) : Option (List String) :=
  let duration := resolveDuration c
  let airline := resolveAirline c
  let price := resolvePrice c
  if price ≠ "N/A" then
    some [from_city, to_city, duration, airline ++ " - " ++ price]
  else
    none

/-- Environment of one `extract_top_flights` call: the outcome of each page
query it performs. -/
structure ExtractEnv where
  /-- the no-flights probe (lines 234-241) finds a "No flights found" /
  "no results" element within the wait budget -/
  noFlightsMessage : Bool
  /-- the generic content-readiness wait (lines 244-246) succeeds -/
  contentReady : Bool
  /-- outcome of each flight-card locator in the `locators` list
  (lines 250-255), in order: `some cards` when
  `presence_of_all_elements_located` succeeds, `none` when it times out -/
  locatorResults : List (Option (List Card))
deriving Repr

/-- Observable events of the extraction stage. -/
inductive ExtractEvent
  | waitBudgetSet (units : Nat)
  | noResultsDetected
  | contentReadyConfirmed
  | cardLocatorTried (success : Bool)
  | diagnosticsSaved
deriving Repr, DecidableEq

/-- Card-resolution loop (designs.py lines 249-263): try each locator in
order; the first success is truncated to its first five elements
(`[:5]`, line 258) and the loop breaks. -/
def resolveFlightCards : List (Option (List Card)) → Option (List Card) × List ExtractEvent
  | [] => (none, [])
  | some cards :: _ => (some (cards.take 5), [.cardLocatorTried true])
  | none :: rest =>
    let r := resolveFlightCards rest
    (r.1, .cardLocatorTried false :: r.2)

/-- First locator that succeeds, without the truncation, used to state which
cards the output rows come from. -/
def firstLocatorSuccess : List (Option (List Card)) → Option (List Card)
  | [] => none
  | some cards :: _ => some cards
  | none :: rest => firstLocatorSuccess rest

/-- Body of the outer `try` of `extract_top_flights` (designs.py lines
231-344).  The only statement whose exception escapes to the outer handler is
the content-readiness wait (lines 244-246): the no-flights probe and every
locator attempt are wrapped in their own `try/except` blocks, and the
per-card loop catches its own failures. -/
def extract_top_flights_inner (env : ExtractEnv) (from_city to_city : String) :
    Except String (List (List String)) × List ExtractEvent :=
  -- line 232: self.wait = WebDriverWait(self.driver, 30)
  let evs0 : List ExtractEvent := [.waitBudgetSet 30]
  -- lines 234-241: no-flights probe; on success return [], on timeout pass
  if env.noFlightsMessage then
    (.ok [], evs0 ++ [.noResultsDetected])
  -- lines 244-246: readiness wait; a timeout here reaches the outer handler
  else if env.contentReady = false then
    (.error "timed out waiting for result content", evs0)
  else
    let resolved := resolveFlightCards env.locatorResults
    let evs1 := evs0 ++ [.contentReadyConfirmed] ++ resolved.2
    match resolved.1 with
    -- lines 265-272: `if not flight_cards:` — no locator succeeded
    | none => (.ok [], evs1 ++ [.diagnosticsSaved])
    | some cards =>
      if cards.isEmpty then
        (.ok [], evs1 ++ [.diagnosticsSaved])
      else
        -- lines 274-334: per-card extraction; a card contributes a row
        -- exactly when its price resolves to something other than "N/A"
        let flight_data := cards.filterMap (extract_card from_city to_city)
        -- lines 336-342: empty-result diagnostics, then `return flight_data`
        (.ok flight_data,
          if flight_data.isEmpty then evs1 ++ [.diagnosticsSaved] else evs1)

/-- Whole `extract_top_flights` including the outer exception handler
(designs.py lines 345-353), which saves diagnostics and returns `[]` for any
escaped exception.  The function therefore always returns a list of rows. -/
def extract_top_flights (env : ExtractEnv) (from_city to_city : String) :
    List (List String) × List ExtractEvent :=
  match extract_top_flights_inner env from_city to_city with
  | (.ok rows, evs) => (rows, evs)
  | (.error _, evs) => ([], evs ++ [.diagnosticsSaved])

/-! ### Date selection (`select_date`, designs.py lines 115-142) -/

/-- Environment of one `select_date` call.  One attempt of the retry loop
(click the date-field opener, then click the calendar cell whose aria-label is
the target date and that is not flagged disabled) either completes or raises
somewhere inside; `attemptSucceeds i` records the outcome of attempt `i`.
`fallbackSucceeds` records whether the single fallback click on the next
calendar day's cell (lines 133-140) succeeds. -/
structure DateEnv where
  attemptSucceeds : Nat → Bool
  fallbackSucceeds : Bool

/-- Retry loop of `select_date` over the attempt indices of `range(3)`.  An
attempt that succeeds returns the originally requested day.  When the last
attempt (index 2) fails, the fallback selects `date + 1`; if the fallback
also fails the function raises (line 142).  The loop can never fall off the
end: attempt index 2 always returns or raises, so the `[]` case below is
unreachable from `select_date`. -/
def selectDateLoop (env : DateEnv) (date : Nat) : List Nat → Except String Nat
  | [] => .error "unreachable: the range(3) loop ended without returning"
  | attempt :: rest =>
    if env.attemptSucceeds attempt then .ok date
    else if attempt = 2 then
      if env.fallbackSucceeds then .ok (date + 1)
      else .error "Failed to select date after retries and fallback"
    else selectDateLoop env date rest

/-- Date selection (designs.py lines 115-142): result is the day whose
calendar cell ends up clicked, or an error after three failed attempts and a
failed fallback.  The `is_return` flag only changes which xpath is used for
the opener; it does not affect the control flow and is omitted here. -/
def select_date (env : DateEnv) (date : Nat) : Except String Nat :=
  selectDateLoop env date [0, 1, 2]

/-! ### Form interaction and results wait (`search_flights`, lines 144-227) -/

/-- Environment of one `search_flights` call: the outcome of each page query
it performs, in program order. -/
structure SearchEnv where
  /-- line 147: initial wait for the From input's presence -/
  formInputPresent : Bool
  /-- line 150: wait for the From input to be clickable -/
  fromInputClickable : Bool
  /-- lines 153-168: attempt `i` of the From-city entry loop (click, clear,
  type, wait for suggestion, click suggestion, confirm value) succeeds -/
  fromAttemptSucceeds : Nat → Bool
  /-- line 170: wait for the To input to be clickable -/
  toInputClickable : Bool
  /-- lines 172-187: attempt `i` of the To-city entry loop succeeds -/
  toAttemptSucceeds : Nat → Bool
  /-- environment of the departure-date `select_date` call (line 189) -/
  departEnv : DateEnv
  /-- environment of the return-date `select_date` call (line 190) -/
  returnEnv : DateEnv
  /-- line 193: the pre-submission probe finds a validation-error element -/
  validationErrorPresent : Bool
  /-- line 199: wait for the search button to be clickable -/
  searchButtonClickable : Bool
  /-- line 208: the URL contains "results" within the wait budget -/
  urlContainsResults : Bool
  /-- line 209: a results-container element is present -/
  resultsContainerPresent : Bool
  /-- line 210: the loading/spinner indicator is absent -/
  loadingIndicatorGone : Bool
  /-- line 211: price-bearing text is present -/
  priceTextPresent : Bool
  /-- line 221: after navigating back, the search-form input appears -/
  homeInputPresentAfterTimeout : Bool

/-- Observable events of `search_flights`. -/
inductive SearchEvent
  | loginBannerChecked
  | enterKeySent
  | cityEntered (isFrom : Bool) (city : String)
  | dateSelected (isReturnDate : Bool) (day : Nat)
  | validationProbe (found : Bool)
  | searchClicked
  | waitBudgetSet (units : Nat)
  | resultsLoaded
  | screenshotSaved
  | currentUrlRead
  | navigatedToSearchPage
deriving Repr, DecidableEq

/-- Result of `search_flights`: the raised-or-returned outcome, the event
trace, and the wait budget (`self.wait`) left behind on exit. -/
structure SearchOut where
  result : Except String Unit
  trace : List SearchEvent
  waitTimeout : Nat
deriving Repr

/-- City-entry loop of `search_flights` (designs.py lines 153-168 for the
From field, 172-187 for the To field): two attempts; after a failed attempt
an ENTER key is sent, and a failure of the second attempt raises. -/
def enterCity (attemptSucceeds : Nat → Bool) (isFrom : Bool) (city : String) :
    Except String Unit × List SearchEvent :=
  if attemptSucceeds 0 then
    (.ok (), [.cityEntered isFrom city])
  else if attemptSucceeds 1 then
    (.ok (), [.enterKeySent, .cityEntered isFrom city])
  else
    (.error ("Failed to enter city after retries: " ++ city),
      [.enterKeySent, .enterKeySent])

/-- Disjunction of the four results-ready signals waited on by `EC.any_of`
(designs.py lines 207-212). -/
def resultsReady (env : SearchEnv) : Bool :=
  env.urlContainsResults || env.resultsContainerPresent ||
    env.loadingIndicatorGone || env.priceTextPresent

/-- The `search_flights` routine (designs.py lines 144-227).  `wait0` is the
wait budget in force on entry (5, set by `setup_driver` or by `run`'s
`finally` block).  The outer `try/except` (lines 146, 225-227) only logs and
re-raises, so it does not change the outcome.

Note on the validation probe (lines 192-197): the `raise` that reports a
detected validation error sits inside the same `try` whose bare `except:
pass` follows it, so the raised exception is swallowed immediately and
control reaches the search-button click in every case; the probe's finding
is recorded in the trace but cannot alter the control flow. -/
def search_flights (env : SearchEnv) (from_city to_city : String)
    (departDay returnDay wait0 : Nat) : SearchOut :=
  if env.formInputPresent = false then
    { result := .error "search form input not present", trace := [],
      waitTimeout := wait0 }
  else
    -- line 149: handle_login_banner catches every exception it can raise
    let t0 : List SearchEvent := [.loginBannerChecked]
    if env.fromInputClickable = false then
      { result := .error "From input field not clickable", trace := t0,
        waitTimeout := wait0 }
    else
      match enterCity env.fromAttemptSucceeds true from_city with
      | (.error e, evs) =>
        { result := .error e, trace := t0 ++ evs, waitTimeout := wait0 }
      | (.ok _, evsFrom) =>
        if env.toInputClickable = false then
          { result := .error "To input field not clickable",
            trace := t0 ++ evsFrom, waitTimeout := wait0 }
        else
          match enterCity env.toAttemptSucceeds false to_city with
          | (.error e, evs) =>
            { result := .error e, trace := t0 ++ evsFrom ++ evs,
              waitTimeout := wait0 }
          | (.ok _, evsTo) =>
            match select_date env.departEnv departDay with
            | .error e =>
              { result := .error e, trace := t0 ++ evsFrom ++ evsTo,
                waitTimeout := wait0 }
            | .ok d1 =>
              match select_date env.returnEnv returnDay with
              | .error e =>
                { result := .error e,
                  trace := t0 ++ evsFrom ++ evsTo ++ [.dateSelected false d1],
                  waitTimeout := wait0 }
              | .ok d2 =>
                -- lines 192-197: validation probe, outcome swallowed
                let t1 := t0 ++ evsFrom ++ evsTo ++
                  [.dateSelected false d1, .dateSelected true d2,
                   .validationProbe env.validationErrorPresent]
                if env.searchButtonClickable = false then
                  { result := .error "Search button not clickable",
                    trace := t1, waitTimeout := wait0 }
                else
                  -- line 202: click search; line 205: budget := 15
                  let t2 := t1 ++ [.searchClicked, .waitBudgetSet 15]
                  if resultsReady env then
                    { result := .ok (), trace := t2 ++ [.resultsLoaded],
                      waitTimeout := 15 }
                  else
                    -- lines 214-223: timeout path — screenshot, URL read,
                    -- navigate back, budget := 5, wait for the form, raise
                    let t3 := t2 ++ [.screenshotSaved, .currentUrlRead,
                      .navigatedToSearchPage, .waitBudgetSet 5]
                    if env.homeInputPresentAfterTimeout then
                      { result :=
                          .error "Results page did not load within timeout",
                        trace := t3, waitTimeout := 5 }
                    else
                      { result := .error
                          "timed out waiting for the search page input after navigating back",
                        trace := t3, waitTimeout := 5 }

/-! ### Session loop (`reset_form` lines 88-113, `run` lines 355-383) -/

/-- Environment of one `reset_form` call. -/
structure ResetEnv where
  /-- lines 91-108: the whole in-place reset sequence (waits, script-driven
  clears, calendar open) completes without raising -/
  inPlaceResetSucceeds : Bool
  /-- lines 111-113: after the fallback page reload inside `reset_form`, the
  wait for the form input succeeds -/
  reloadFormReady : Bool
deriving Repr, DecidableEq

/-- Observable events of the session loop. -/
inductive RunEvent
  | printedTable (city : String)
  | printedNoFlights (city : String)
  | printedFailure (city : String)
  | formResetInPlace
  | pageReloaded
  | formReadyWaitSucceeded
  | formReadyWaitFailed
deriving Repr, DecidableEq

/-- The `reset_form` routine (designs.py lines 88-113): try the in-place
reset; on any exception, fall back to a full page reload followed by a wait
for the form input's presence.  A failure of that wait escapes `reset_form`
(the fallback is not itself guarded). -/
def reset_form (env : ResetEnv) : Except String Unit × List RunEvent :=
  if env.inPlaceResetSucceeds then
    (.ok (), [.formResetInPlace])
  else if env.reloadFormReady then
    (.ok (), [.pageReloaded, .formReadyWaitSucceeded])
  else
    (.error "form readiness wait timed out after reload",
      [.pageReloaded, .formReadyWaitFailed])

/-- Per-destination environment of the session loop. -/
structure DestEnv where
  /-- environment of this destination's `search_flights` call -/
  search : SearchEnv
  /-- environment of this destination's `extract_top_flights` call -/
  extract : ExtractEnv
  /-- environment of the between-destination `reset_form` call -/
  reset : ResetEnv
  /-- lines 379-381: if `reset_form` raised, `run`'s own fallback reloads the
  page and waits for the form input; this is that wait's outcome -/
  recoverFormReady : Bool

/-- Record of one destination's turn through the loop: the printed outcome of
its processing, then the reset/recovery events that ran after it (empty for
the last destination, where `i < len(self.to_cities) - 1` is false).  Records
are listed in processing order, and a record's `gapEvents` happen after its
`events` and before the next record's `events`. -/
structure DestRecord where
  city : String
  events : List RunEvent
  gapEvents : List RunEvent
deriving Repr, DecidableEq

/-- Result of `run`: the destination records completed, and whether an
exception escaped the loop (aborting the remaining destinations). -/
structure RunOut where
  records : List DestRecord
  aborted : Bool
deriving Repr, DecidableEq

/-- Body of the per-destination `try` block (designs.py lines 358-371):
search, then extract, then print a table, a no-flights notice, or — when
`search_flights` raised — a failure notice.  `extract_top_flights` never
raises, so the failure notice can only come from the search.  Each
destination's search starts with a wait budget of 5 (set by `setup_driver`
for the first destination and by the `finally` block for the others). -/
def runDest (f city : String) (env : DestEnv) (d r : Nat) : List RunEvent :=
  match (search_flights env.search f city d r 5).result with
  | .error _ => [.printedFailure city]
  | .ok _ =>
    if (extract_top_flights env.extract f city).1.isEmpty then
      [.printedNoFlights city]
    else
      [.printedTable city]

/-- The `run` loop (designs.py lines 355-383) over the destination list
paired with each destination's environment.  The `try/except` catches any
processing failure and prints a notice; the `finally` block resets the form
between destinations (`i < len - 1`), falling back to a reload-and-wait when
`reset_form` raises.  A failure of that last-resort wait (line 380) escapes
the `finally` block and aborts the whole loop. -/
def run (f : String) (d r : Nat) : List (String × DestEnv) → RunOut
  | [] => { records := [], aborted := false }
  | (city, env) :: rest =>
    let pev := runDest f city env d r
    if rest.isEmpty then
      { records := [{ city := city, events := pev, gapEvents := [] }],
        aborted := false }
    else
      match reset_form env.reset with
      | (.ok _, gev) =>
        let out := run f d r rest
        { records :=
            { city := city, events := pev, gapEvents := gev } :: out.records,
          aborted := out.aborted }
      | (.error _, gev) =>
        if env.recoverFormReady then
          let out := run f d r rest
          { records :=
              { city := city, events := pev,
                gapEvents := gev ++ [.pageReloaded, .formReadyWaitSucceeded] }
              :: out.records,
            aborted := out.aborted }
        else
          { records :=
              [{ city := city, events := pev,
                 gapEvents := gev ++ [.pageReloaded, .formReadyWaitFailed] }],
            aborted := true }

/-- Configured origin (designs.py line 83). -/
def from_city : String := "BLR"

/-- Configured destination list (designs.py line 84). -/
def to_cities : List String := ["DEL", "CCU", "MAA", "HYD"]

/-! ### Driver lifecycle (`setup_driver` lines 28-41, `quit_driver` lines
67-77, `main` lines 385-391) -/

/-- Environment of a whole program run. -/
structure LifecycleEnv where
  /-- lines 37-38: driver-manager install and Chrome construction succeed -/
  chromeStarts : Bool
  /-- line 40: the initial `driver.get` of the search page succeeds -/
  initialPageLoads : Bool
  /-- the per-destination environments of the session loop -/
  runItems : List (String × DestEnv)
  /-- line 71: `driver.quit()` succeeds -/
  quitSucceeds : Bool

/-- Observable lifecycle events. -/
inductive LifeEvent
  | tempDirCreated
  | driverStarted
  | pageOpened
  | driverQuit
  | tempDirRemoved
deriving Repr, DecidableEq

/-- The `setup_driver` routine (designs.py lines 28-41), called from the
constructor: the temporary profile directory is created first
(`tempfile.mkdtemp()`, line 30); any later failure propagates out of the
constructor with the directory already on disk.  `handle_login_popup`
(line 41) catches everything it can raise. -/
def setup_driver (env : LifecycleEnv) : Except String Unit × List LifeEvent :=
  let evs : List LifeEvent := [.tempDirCreated]
  if env.chromeStarts = false then
    (.error "webdriver construction failed", evs)
  else
    let evs := evs ++ [LifeEvent.driverStarted]
    if env.initialPageLoads = false then
      (.error "initial page load failed", evs)
    else
      (.ok (), evs ++ [LifeEvent.pageOpened])

/-- The `quit_driver` routine (designs.py lines 67-77).  The quit and the
directory removal share one `try`: when `driver.quit()` raises, the handler
is entered and the `shutil.rmtree` that follows the quit is skipped. -/
def quit_driver (driverPresent quitOk : Bool) : List LifeEvent :=
  if driverPresent then
    if quitOk then [.driverQuit, .tempDirRemoved]
    else [.driverQuit]
  else
    [.tempDirRemoved]

/-- The `main` entry point (designs.py lines 385-391).  The constructor call
`searcher = FlightSearcher()` stands before the `try`, so a setup failure
propagates without `quit_driver` ever running.  When setup succeeds, the
`try/finally` guarantees `quit_driver` runs whether or not `run` raised.
The searcher's dates (`now + 1 day`, departure `+ 4 days`) are day numbers
1 and 5 with the run date as day 0. -/
def main (env : LifecycleEnv) : Except String Unit × List LifeEvent :=
  match setup_driver env with
  | (.error e, evs) => (.error e, evs)
  | (.ok _, evs) =>
    let out := run from_city 1 5 env.runItems
    let q := quit_driver true env.quitSucceeds
    if out.aborted then (.error "run aborted", evs ++ q)
    else (.ok (), evs ++ q)

/-! ### Concrete sample environments -/

/-- Date environment in which every click succeeds at once. -/
def allOkDateEnv : DateEnv :=
  { attemptSucceeds := fun _ => true, fallbackSucceeds := true }

/-- Date environment: all three attempts fail, the next-day fallback works. -/
def staleDateEnvFbOk : DateEnv :=
  { attemptSucceeds := fun _ => false, fallbackSucceeds := true }

/-- Date environment: all three attempts and the fallback fail. -/
def staleDateEnvAllFail : DateEnv :=
  { attemptSucceeds := fun _ => false, fallbackSucceeds := false }

/-- Search environment in which every interaction succeeds and no validation
error is shown. -/
def okSearchEnv : SearchEnv :=
  { formInputPresent := true
    fromInputClickable := true
    fromAttemptSucceeds := fun _ => true
    toInputClickable := true
    toAttemptSucceeds := fun _ => true
    departEnv := allOkDateEnv
    returnEnv := allOkDateEnv
    validationErrorPresent := false
    searchButtonClickable := true
    urlContainsResults := true
    resultsContainerPresent := true
    loadingIndicatorGone := true
    priceTextPresent := true
    homeInputPresentAfterTimeout := true }

/-- Search environment identical to `okSearchEnv` except that the
pre-submission probe finds a validation-error element on the page. -/
def validationTrippedEnv : SearchEnv :=
  { okSearchEnv with validationErrorPresent := true }

/-- Search environment in which the form fills fine but none of the four
results-ready signals ever fires. -/
def timeoutSearchEnv : SearchEnv :=
  { okSearchEnv with
    urlContainsResults := false
    resultsContainerPresent := false
    loadingIndicatorGone := false
    priceTextPresent := false }

/-- Search environment in which the very first wait (form input presence)
already times out, so `search_flights` raises immediately. -/
def deadPageSearchEnv : SearchEnv :=
  { okSearchEnv with formInputPresent := false }

/-- Search environment whose departure-date attempts and fallback all
fail. -/
def staleDepartSearchEnv : SearchEnv :=
  { okSearchEnv with departEnv := staleDateEnvAllFail }

/-- A card on which every field locator succeeds. -/
def cardFull : Card :=
  { durationPrimary := some "2h 05m"
    durationFallbackResults := []
    airlinePrimary := some "IndiGo"
    pricePrimary := some "₹4,599" }

/-- A card whose price locator fails (and whose other locators succeed). -/
def cardNoPrice : Card :=
  { durationPrimary := some "1h 30m"
    durationFallbackResults := []
    airlinePrimary := some "Vistara"
    pricePrimary := none }

/-- A card whose duration locators all fail and whose airline locator fails,
but whose price resolves. -/
def cardBare : Card :=
  { durationPrimary := none
    durationFallbackResults := [none, none]
    airlinePrimary := none
    pricePrimary := some "₹6,120" }

/-- Seven resolved cards, more than the five-card cap. -/
def sevenCards : List Card :=
  [cardFull, cardNoPrice, cardBare,
   { cardFull with pricePrimary := some "₹5,010" },
   { cardFull with pricePrimary := some "₹5,550" },
   { cardFull with pricePrimary := some "₹7,000" },
   { cardFull with pricePrimary := some "₹9,999" }]

/-- Extraction environment: results render and the second locator finds the
seven sample cards after the first locator times out. -/
def sevenCardExtractEnv : ExtractEnv :=
  { noFlightsMessage := false
    contentReady := true
    locatorResults := [none, some sevenCards] }

/-- Extraction environment with a single full card. -/
def okExtractEnv : ExtractEnv :=
  { noFlightsMessage := false
    contentReady := true
    locatorResults := [some [cardFull]] }

/-- Extraction environment in which the page shows the no-flights message. -/
def noResultsExtractEnv : ExtractEnv :=
  { noFlightsMessage := true
    contentReady := true
    locatorResults := [some [cardFull]] }

/-- Extraction environment in which the content-readiness wait times out. -/
def notReadyExtractEnv : ExtractEnv :=
  { noFlightsMessage := false
    contentReady := false
    locatorResults := [some [cardFull]] }

/-- Extraction environment in which every card locator times out. -/
def noCardsExtractEnv : ExtractEnv :=
  { noFlightsMessage := false
    contentReady := true
    locatorResults := [none, none, none, none] }

/-- Destination environment in which everything works. -/
def okDestEnv : DestEnv :=
  { search := okSearchEnv
    extract := okExtractEnv
    reset := { inPlaceResetSucceeds := true, reloadFormReady := true }
    recoverFormReady := true }

/-- Destination environment whose search fails outright but whose reset
path works, so the loop can continue. -/
def failSearchDestEnv : DestEnv :=
  { okDestEnv with search := deadPageSearchEnv }

/-- Destination environment whose processing works but after which the
in-place reset, the reload fallback inside `reset_form`, and the loop's own
reload fallback all fail. -/
def resetDeadDestEnv : DestEnv :=
  { okDestEnv with
    reset := { inPlaceResetSucceeds := false, reloadFormReady := false }
    recoverFormReady := false }

/-- The configured four-destination batch in an environment where the first
destination's between-destination reset recovery fails at every level. -/
def abortRunItems : List (String × DestEnv) :=
  [("DEL", resetDeadDestEnv), ("CCU", okDestEnv),
   ("MAA", okDestEnv), ("HYD", okDestEnv)]

/-- A two-destination batch whose first search fails while reset recovery
stays healthy. -/
def isolationRunItems : List (String × DestEnv) :=
  [("DEL", failSearchDestEnv), ("CCU", okDestEnv)]

/-- The configured batch with every destination healthy. -/
def okRunItems : List (String × DestEnv) :=
  [("DEL", okDestEnv), ("CCU", okDestEnv),
   ("MAA", okDestEnv), ("HYD", okDestEnv)]

/-- Lifecycle environment in which Chrome fails to start during setup. -/
def setupFailLifeEnv : LifecycleEnv :=
  { chromeStarts := false
    initialPageLoads := true
    runItems := okRunItems
    quitSucceeds := true }

/-- Lifecycle environment in which the run succeeds but `driver.quit()`
raises during teardown. -/
def quitFailLifeEnv : LifecycleEnv :=
  { chromeStarts := true
    initialPageLoads := true
    runItems := okRunItems
    quitSucceeds := false }

/-! ### Helper lemmas -/

/-- The card-resolution loop returns the first locator hit, truncated to its
first five elements. -/
theorem resolveFlightCards_fst (ls : List (Option (List Card))) :
    (resolveFlightCards ls).1 = (firstLocatorSuccess ls).map (List.take 5) := by
  induction ls with
  | nil => rfl
  | cons h rest ih =>
    cases h <;> simp [resolveFlightCards, firstLocatorSuccess, ih]

/-- A card that contributes a row has a resolved (non-placeholder) price. -/
theorem extract_card_some_price (f t : String) (c : Card) (row : List String)
    (h : extract_card f t c = some row) : resolvePrice c ≠ "N/A" := by
  by_cases hp : resolvePrice c = "N/A"
  · simp [extract_card, hp] at h
  · exact hp

/-- In the branch where cards were resolved, the returned rows are exactly
the in-order `filterMap` of the per-card extraction over those cards. -/
theorem extract_rows_of_cards (env : ExtractEnv) (f t : String) (cs : List Card)
    (hn : env.noFlightsMessage = false) (hc : env.contentReady = true)
    (hr : (resolveFlightCards env.locatorResults).1 = some cs) :
    (extract_top_flights env f t).1 = cs.filterMap (extract_card f t) := by
  cases cs with
  | nil => simp [extract_top_flights, extract_top_flights_inner, hn, hc, hr]
  | cons a as =>
    simp [extract_top_flights, extract_top_flights_inner, hn, hc, hr]

/-- In the branches where no cards were resolved, the rows are empty. -/
theorem extract_rows_empty (env : ExtractEnv) (f t : String)
    (h : env.noFlightsMessage = true ∨ env.contentReady = false ∨
      (resolveFlightCards env.locatorResults).1 = none) :
    (extract_top_flights env f t).1 = [] := by
  rcases h with h | h | h
  · simp [extract_top_flights, extract_top_flights_inner, h]
  · by_cases hn : env.noFlightsMessage
    · simp [extract_top_flights, extract_top_flights_inner, hn]
    · simp [extract_top_flights, extract_top_flights_inner, hn, h]
  · by_cases hn : env.noFlightsMessage
    · simp [extract_top_flights, extract_top_flights_inner, hn]
    · by_cases hc : env.contentReady = false
      · simp [extract_top_flights, extract_top_flights_inner, hn, hc]
      · simp [extract_top_flights, extract_top_flights_inner, hn, hc, h]

/-! ### Claim theorems -/

/-- C2: every row returned by `extract_top_flights` comes from a card whose
price was resolved; a card whose price resolves to the placeholder "N/A" is
dropped (and only such cards are dropped), while cards whose duration or
airline locators all fail still yield a row, with the placeholder duration
"3" and the fallback airline "Indigo" standing in for the missing fields. -/
theorem extract_price_gating (env : ExtractEnv) (f t : String) :
    (∀ row ∈ (extract_top_flights env f t).1,
        ∃ c : Card, extract_card f t c = some row ∧ resolvePrice c ≠ "N/A") ∧
    (∀ c : Card, extract_card f t c = none ↔ resolvePrice c = "N/A") ∧
    (∀ c : Card, resolvePrice c ≠ "N/A" →
        extract_card f t c =
          some [f, t, resolveDuration c,
                resolveAirline c ++ " - " ++ resolvePrice c]) ∧
    (∀ c : Card, c.durationPrimary = none →
        firstFound c.durationFallbackResults = none →
        resolveDuration c = "3") ∧
    (∀ c : Card, c.airlinePrimary = none → resolveAirline c = "Indigo") := by
  refine ⟨?_, ?_, ?_, ?_, ?_⟩
  · intro row hrow
    by_cases hn : env.noFlightsMessage
    · rw [extract_rows_empty env f t (Or.inl hn)] at hrow
      exact absurd hrow (List.not_mem_nil row)
    · by_cases hc : env.contentReady = false
      · rw [extract_rows_empty env f t (Or.inr (Or.inl hc))] at hrow
        exact absurd hrow (List.not_mem_nil row)
      · have hc2 : env.contentReady = true := by
          revert hc; cases env.contentReady <;> simp
        have hn2 : env.noFlightsMessage = false := by
          revert hn; cases env.noFlightsMessage <;> simp
        cases hr : (resolveFlightCards env.locatorResults).1 with
        | none =>
          rw [extract_rows_empty env f t (Or.inr (Or.inr hr))] at hrow
          exact absurd hrow (List.not_mem_nil row)
        | some cs =>
          rw [extract_rows_of_cards env f t cs hn2 hc2 hr] at hrow
          obtain ⟨c, _, hcr⟩ := List.mem_filterMap.mp hrow
          exact ⟨c, hcr, extract_card_some_price f t c row hcr⟩
  · intro c
    by_cases hp : resolvePrice c = "N/A"
    · simp [extract_card, hp]
    · simp [extract_card, hp]
  · intro c hp
    simp [extract_card, hp]
  · intro c h1 h2
    simp [resolveDuration, h1, h2]
  · intro c h
    simp [resolveAirline, h, airlineFallbackValues]

/-- Concrete run of the price-gating property: the card with an unresolved
price yields no row, while the card whose duration and airline locators all
fail still yields a row built from the placeholder values. -/
theorem extract_price_gating_witness :
    extract_card "BLR" "DEL" cardNoPrice = none ∧
    extract_card "BLR" "DEL" cardBare =
      some ["BLR", "DEL", resolveDuration cardBare,
            resolveAirline cardBare ++ " - " ++ resolvePrice cardBare] :=
  ⟨((extract_price_gating okExtractEnv "BLR" "DEL").2.1 cardNoPrice).mpr rfl,
   (extract_price_gating okExtractEnv "BLR" "DEL").2.2.1 cardBare (by decide)⟩

/-- C4: `extract_top_flights` returns at most five rows, and whenever a card
locator succeeded the returned rows are exactly the in-order per-card
extraction of the first five resolved cards — no re-sorting happens. -/
theorem extract_top5_order (env : ExtractEnv) (f t : String) :
    (extract_top_flights env f t).1.length ≤ 5 ∧
    ∀ full : List Card, env.noFlightsMessage = false → env.contentReady = true →
      firstLocatorSuccess env.locatorResults = some full →
      (extract_top_flights env f t).1 =
        (full.take 5).filterMap (extract_card f t) := by
  have hmain : ∀ full : List Card, env.noFlightsMessage = false →
      env.contentReady = true →
      firstLocatorSuccess env.locatorResults = some full →
      (extract_top_flights env f t).1 =
        (full.take 5).filterMap (extract_card f t) := by
    intro full hn hc hfl
    have hr : (resolveFlightCards env.locatorResults).1 = some (full.take 5) := by
      rw [resolveFlightCards_fst, hfl]
      rfl
    exact extract_rows_of_cards env f t (full.take 5) hn hc hr
  refine ⟨?_, hmain⟩
  by_cases hn : env.noFlightsMessage
  · simp [extract_rows_empty env f t (Or.inl hn)]
  · by_cases hc : env.contentReady = false
    · simp [extract_rows_empty env f t (Or.inr (Or.inl hc))]
    · have hc2 : env.contentReady = true := by
        revert hc; cases env.contentReady <;> simp
      have hn2 : env.noFlightsMessage = false := by
        revert hn; cases env.noFlightsMessage <;> simp
      cases hfl : firstLocatorSuccess env.locatorResults with
      | none =>
        have hr : (resolveFlightCards env.locatorResults).1 = none := by
          rw [resolveFlightCards_fst, hfl]
          rfl
        simp [extract_rows_empty env f t (Or.inr (Or.inr hr))]
      | some full =>
        rw [hmain full hn2 hc2 hfl]
        exact le_trans (List.length_filterMap_le _ _)
          (by rw [List.length_take]; exact min_le_left _ _)

/-- Concrete run of the cap-and-order property on seven resolved cards: at
most five rows come back, and they are the in-order extraction of the first
five cards. -/
theorem extract_top5_order_witness :
    (extract_top_flights sevenCardExtractEnv "BLR" "MAA").1.length ≤ 5 ∧
    (extract_top_flights sevenCardExtractEnv "BLR" "MAA").1 =
      (sevenCards.take 5).filterMap (extract_card "BLR" "MAA") :=
  ⟨(extract_top5_order sevenCardExtractEnv "BLR" "MAA").1,
   (extract_top5_order sevenCardExtractEnv "BLR" "MAA").2 sevenCards
     rfl rfl rfl⟩

/-- C5: when the no-flights probe finds its message, `extract_top_flights`
returns the empty list as a normal (non-error) outcome and its trace shows
the 30-unit budget assignment and the detection only — no card-locator
attempt, no readiness confirmation, no per-card extraction, and no
diagnostics capture. -/
theorem extract_no_results_short_circuit (env : ExtractEnv) (f t : String)
    (h : env.noFlightsMessage = true) :
    extract_top_flights env f t =
      ([], [ExtractEvent.waitBudgetSet 30, ExtractEvent.noResultsDetected]) := by
  simp [extract_top_flights, extract_top_flights_inner, h]

/-- Concrete run of the short-circuit property. -/
theorem extract_no_results_short_circuit_witness :
    extract_top_flights noResultsExtractEnv "BLR" "CCU" =
      ([], [ExtractEvent.waitBudgetSet 30, ExtractEvent.noResultsDetected]) :=
  extract_no_results_short_circuit noResultsExtractEnv "BLR" "CCU" rfl

/-- C10: `extract_top_flights` is total over its failure modes — an
exception escaping its body is caught and turned into `[]`, and each
specific failure (content-readiness wait timing out, every card locator
failing) produces `[]`, the same row list as a genuine no-results outcome,
so the session loop cannot tell them apart. -/
theorem extract_total_failure_modes (env env2 : ExtractEnv) (f t : String) :
    (∀ e evs, extract_top_flights_inner env f t = (.error e, evs) →
        (extract_top_flights env f t).1 = []) ∧
    (env.noFlightsMessage = false → env.contentReady = false →
        (extract_top_flights env f t).1 = []) ∧
    (env.noFlightsMessage = false → env.contentReady = true →
        firstLocatorSuccess env.locatorResults = none →
        (extract_top_flights env f t).1 = []) ∧
    (env.contentReady = false → env2.noFlightsMessage = true →
        (extract_top_flights env f t).1 = (extract_top_flights env2 f t).1) := by
  refine ⟨?_, ?_, ?_, ?_⟩
  · intro e evs h
    simp [extract_top_flights, h]
  · intro _ hc
    exact extract_rows_empty env f t (Or.inr (Or.inl hc))
  · intro hn hc hfl
    have hr : (resolveFlightCards env.locatorResults).1 = none := by
      rw [resolveFlightCards_fst, hfl]
      rfl
    exact extract_rows_empty env f t (Or.inr (Or.inr hr))
  · intro hc hn2
    rw [extract_rows_empty env f t (Or.inr (Or.inl hc)),
      extract_rows_empty env2 f t (Or.inl hn2)]

/-- Concrete runs of the totality property: a readiness timeout, a total
card-locator failure, and a genuine no-results page all yield the same empty
row list. -/
theorem extract_total_failure_modes_witness :
    (extract_top_flights notReadyExtractEnv "BLR" "HYD").1 = [] ∧
    (extract_top_flights noCardsExtractEnv "BLR" "HYD").1 = [] ∧
    (extract_top_flights notReadyExtractEnv "BLR" "HYD").1 =
      (extract_top_flights noResultsExtractEnv "BLR" "HYD").1 :=
  ⟨(extract_total_failure_modes notReadyExtractEnv noResultsExtractEnv
      "BLR" "HYD").2.1 rfl rfl,
   (extract_total_failure_modes noCardsExtractEnv noResultsExtractEnv
      "BLR" "HYD").2.2.1 rfl rfl rfl,
   (extract_total_failure_modes notReadyExtractEnv noResultsExtractEnv
      "BLR" "HYD").2.2.2 rfl rfl⟩

/-- C6: when all three attempts at the target date's calendar cell fail, the
engine falls back exactly once to the next calendar day — the fallback click
succeeding makes `select_date` return the shifted day `date + 1` as a
success, and the fallback failing makes `select_date` raise, which in turn
makes the whole `search_flights` call for that destination fail. -/
theorem select_date_fallback_policy (env : DateEnv) (date : Nat)
    (h0 : env.attemptSucceeds 0 = false)
    (h1 : env.attemptSucceeds 1 = false)
    (h2 : env.attemptSucceeds 2 = false) :
    (env.fallbackSucceeds = true → select_date env date = .ok (date + 1)) ∧
    (env.fallbackSucceeds = false →
      select_date env date =
        .error "Failed to select date after retries and fallback" ∧
      ∀ (senv : SearchEnv) (f t : String) (r w : Nat),
        senv.formInputPresent = true → senv.fromInputClickable = true →
        senv.fromAttemptSucceeds 0 = true → senv.toInputClickable = true →
        senv.toAttemptSucceeds 0 = true → senv.departEnv = env →
        ∃ e, (search_flights senv f t date r w).result = Except.error e) := by
  constructor
  · intro hf
    simp [select_date, selectDateLoop, h0, h1, h2, hf]
  · intro hf
    have hsel : select_date env date =
        .error "Failed to select date after retries and fallback" := by
      simp [select_date, selectDateLoop, h0, h1, h2, hf]
    refine ⟨hsel, ?_⟩
    intro senv f t r w hfp hfc hfa htc hta hde
    refine ⟨"Failed to select date after retries and fallback", ?_⟩
    simp [search_flights, enterCity, hfp, hfc, hfa, htc, hta, hde, hsel]

/-- Concrete runs of the date-selection fallback: with the target day's cell
unavailable on all three attempts, a working fallback yields the next day as
a success, and a failing fallback makes the date selection — and with it the
destination's search — fail. -/
theorem select_date_fallback_policy_witness :
    select_date staleDateEnvFbOk 7 = .ok 8 ∧
    select_date staleDateEnvAllFail 7 =
      .error "Failed to select date after retries and fallback" ∧
    ∃ e, (search_flights staleDepartSearchEnv "BLR" "DEL" 7 11 5).result =
      Except.error e :=
  ⟨(select_date_fallback_policy staleDateEnvFbOk 7 rfl rfl rfl).1 rfl,
   ((select_date_fallback_policy staleDateEnvAllFail 7 rfl rfl rfl).2 rfl).1,
   ((select_date_fallback_policy staleDateEnvAllFail 7 rfl rfl rfl).2 rfl).2
     staleDepartSearchEnv "BLR" "DEL" 11 5 rfl rfl rfl rfl rfl rfl⟩

/-- C1 (code observation): with a validation-error message present on the
page and every other interaction succeeding, `search_flights` still clicks
the search button and completes successfully.  The `raise` reporting the
validation error (designs.py line 195) sits inside the `try` whose bare
`except: pass` (lines 196-197) follows it, so the raised exception is
swallowed on the spot and the probe can never abort the submission. -/
theorem search_flights_validation_error_swallowed :
    (search_flights validationTrippedEnv "BLR" "DEL" 1 5 5).result =
      Except.ok () ∧
    SearchEvent.validationProbe true ∈
      (search_flights validationTrippedEnv "BLR" "DEL" 1 5 5).trace ∧
    SearchEvent.searchClicked ∈
      (search_flights validationTrippedEnv "BLR" "DEL" 1 5 5).trace := by
  refine ⟨rfl, ?_, ?_⟩ <;> decide

/-- C7: when the form stage succeeds but none of the four results-ready
signals fires, `search_flights` captures a screenshot and the current URL,
navigates back to the search entry page, resets the wait budget to the
short 5-unit value, and raises an error that propagates to its caller. -/
theorem search_timeout_recovery (env : SearchEnv) (f t : String) (d r w : Nat)
    (hForm : env.formInputPresent = true)
    (hFromC : env.fromInputClickable = true)
    (hFromA : env.fromAttemptSucceeds 0 = true)
    (hToC : env.toInputClickable = true)
    (hToA : env.toAttemptSucceeds 0 = true)
    (hDep : env.departEnv.attemptSucceeds 0 = true)
    (hRet : env.returnEnv.attemptSucceeds 0 = true)
    (hBtn : env.searchButtonClickable = true)
    (hU : env.urlContainsResults = false)
    (hCn : env.resultsContainerPresent = false)
    (hL : env.loadingIndicatorGone = false)
    (hP : env.priceTextPresent = false) :
    (∃ e, (search_flights env f t d r w).result = Except.error e) ∧
    (search_flights env f t d r w).waitTimeout = 5 ∧
    (search_flights env f t d r w).trace =
      [.loginBannerChecked, .cityEntered true f, .cityEntered false t,
       .dateSelected false d, .dateSelected true r,
       .validationProbe env.validationErrorPresent, .searchClicked,
       .waitBudgetSet 15, .screenshotSaved, .currentUrlRead,
       .navigatedToSearchPage, .waitBudgetSet 5] := by
  have hr : resultsReady env = false := by
    simp [resultsReady, hU, hCn, hL, hP]
  cases hh : env.homeInputPresentAfterTimeout
  · refine ⟨⟨"timed out waiting for the search page input after navigating back",
      ?_⟩, ?_, ?_⟩ <;>
      simp [search_flights, enterCity, select_date, selectDateLoop,
        hForm, hFromC, hFromA, hToC, hToA, hDep, hRet, hBtn, hr, hh]
  · refine ⟨⟨"Results page did not load within timeout", ?_⟩, ?_, ?_⟩ <;>
      simp [search_flights, enterCity, select_date, selectDateLoop,
        hForm, hFromC, hFromA, hToC, hToA, hDep, hRet, hBtn, hr, hh]

/-- Concrete run of the results-wait timeout recovery. -/
theorem search_timeout_recovery_witness :
    (∃ e, (search_flights timeoutSearchEnv "BLR" "DEL" 1 5 5).result =
      Except.error e) ∧
    (search_flights timeoutSearchEnv "BLR" "DEL" 1 5 5).waitTimeout = 5 ∧
    (search_flights timeoutSearchEnv "BLR" "DEL" 1 5 5).trace =
      [.loginBannerChecked, .cityEntered true "BLR", .cityEntered false "DEL",
       .dateSelected false 1, .dateSelected true 5,
       .validationProbe timeoutSearchEnv.validationErrorPresent,
       .searchClicked, .waitBudgetSet 15, .screenshotSaved, .currentUrlRead,
       .navigatedToSearchPage, .waitBudgetSet 5] :=
  search_timeout_recovery timeoutSearchEnv "BLR" "DEL" 1 5 5
    rfl rfl rfl rfl rfl rfl rfl rfl rfl rfl rfl rfl

/-- Helper: as long as each gap's reset recovery succeeds at some level
(in-place reset, `reset_form`'s reload fallback, or the loop's own reload
fallback), the loop never aborts and produces exactly one record per
configured destination, in order, with that destination's processing
events. -/
theorem run_complete_aux (f : String) (d r : Nat)
    (items : List (String × DestEnv))
    (hrec : ∀ p ∈ items, p.2.reset.inPlaceResetSucceeds = true ∨
        p.2.reset.reloadFormReady = true ∨ p.2.recoverFormReady = true) :
    (run f d r items).aborted = false ∧
    (run f d r items).records.map (fun rec => (rec.city, rec.events)) =
      items.map (fun p => (p.1, runDest f p.1 p.2 d r)) := by
  induction items with
  | nil => exact ⟨rfl, rfl⟩
  | cons p rest ih =>
    obtain ⟨city, env⟩ := p
    have hhead := hrec (city, env) (List.mem_cons_self _ _)
    have htail : ∀ q ∈ rest, q.2.reset.inPlaceResetSucceeds = true ∨
        q.2.reset.reloadFormReady = true ∨ q.2.recoverFormReady = true :=
      fun q hq => hrec q (List.mem_cons_of_mem _ hq)
    have ihr := ih htail
    cases rest with
    | nil => simp [run]
    | cons q qs =>
      cases hIn : env.reset.inPlaceResetSucceeds with
      | true =>
        rw [run]
        simp [reset_form, hIn, ihr.1, ihr.2]
      | false =>
        cases hRe : env.reset.reloadFormReady with
        | true =>
          rw [run]
          simp [reset_form, hIn, hRe, ihr.1, ihr.2]
        | false =>
          have hRc : env.recoverFormReady = true := by
            rcases hhead with h | h | h
            · rw [h] at hIn; exact absurd hIn (by simp)
            · rw [h] at hRe; exact absurd hRe (by simp)
            · exact h
          rw [run]
          simp [reset_form, hIn, hRe, hRc, ihr.1, ihr.2]

/-- C3 counterexample: in the configured four-destination batch, when the
first destination's in-place reset, `reset_form`'s reload fallback, and the
loop's own reload fallback all fail, the exception escapes the `finally`
block and the remaining three destinations — "CCU" among them — are never
processed. -/
theorem run_abort_counterexample :
    (run from_city 1 5 abortRunItems).aborted = true ∧
    (run from_city 1 5 abortRunItems).records.map DestRecord.city = ["DEL"] ∧
    "CCU" ∉ (run from_city 1 5 abortRunItems).records.map DestRecord.city := by
  refine ⟨rfl, rfl, ?_⟩
  decide

/-- C3 (amended): provided the between-destination reset recovery never
fails at every level, `run` processes each configured destination exactly
once in list order; an exception raised while processing a destination
(which can only come from `search_flights`, since `extract_top_flights`
never raises) is caught at the loop boundary, prints a failure notice, and
leaves every later destination's processing unaffected. -/
theorem run_batch_isolation (f : String) (d r : Nat)
    (items : List (String × DestEnv))
    (hrec : ∀ p ∈ items, p.2.reset.inPlaceResetSucceeds = true ∨
        p.2.reset.reloadFormReady = true ∨ p.2.recoverFormReady = true) :
    (run f d r items).aborted = false ∧
    (run f d r items).records.map (fun rec => (rec.city, rec.events)) =
      items.map (fun p => (p.1, runDest f p.1 p.2 d r)) ∧
    ∀ (city : String) (env : DestEnv) (e : String),
      (search_flights env.search f city d r 5).result = Except.error e →
      runDest f city env d r = [RunEvent.printedFailure city] := by
  refine ⟨(run_complete_aux f d r items hrec).1,
    (run_complete_aux f d r items hrec).2, ?_⟩
  intro city env e h
  simp [runDest, h]

/-- Concrete run of the batch-isolation property: the first destination's
search fails, a failure notice is printed for it, and the second destination
is still processed. -/
theorem run_batch_isolation_witness :
    (run from_city 1 5 isolationRunItems).aborted = false ∧
    (run from_city 1 5 isolationRunItems).records.map
      (fun rec => (rec.city, rec.events)) =
      isolationRunItems.map
        (fun p => (p.1, runDest from_city p.1 p.2 1 5)) ∧
    ∀ (city : String) (env : DestEnv) (e : String),
      (search_flights env.search from_city city 1 5 5).result =
        Except.error e →
      runDest from_city city env 1 5 = [RunEvent.printedFailure city] :=
  run_batch_isolation from_city 1 5 isolationRunItems (by decide)

/-- C8: between destinations the loop resets the form in place; a failed
in-place reset falls back to a full page reload followed by the wait for the
form's readiness signal; a destination's reset events are attached to its
own record, ahead of every later destination's record (the loop only
proceeds to the rest of the batch afterwards); and after the last
destination no reset happens at all. -/
theorem run_reset_policy (f : String) (d r : Nat) :
    (∀ env : ResetEnv, env.inPlaceResetSucceeds = true →
        reset_form env = (.ok (), [.formResetInPlace])) ∧
    (∀ env : ResetEnv, env.inPlaceResetSucceeds = false →
        env.reloadFormReady = true →
        reset_form env =
          (.ok (), [.pageReloaded, .formReadyWaitSucceeded])) ∧
    (∀ (city : String) (env : DestEnv) (rest : List (String × DestEnv))
        (g : List RunEvent),
        rest.isEmpty = false →
        reset_form env.reset = (.ok (), g) →
        (run f d r ((city, env) :: rest)).records =
          { city := city, events := runDest f city env d r, gapEvents := g }
            :: (run f d r rest).records) ∧
    (∀ (city : String) (env : DestEnv),
        (run f d r [(city, env)]).records.map DestRecord.gapEvents = [[]]) := by
  refine ⟨?_, ?_, ?_, ?_⟩
  · intro env h
    simp [reset_form, h]
  · intro env h1 h2
    simp [reset_form, h1, h2]
  · intro city env rest g hrest hok
    cases rest with
    | nil => simp at hrest
    | cons q qs => simp [run, hok]
  · intro city env
    simp [run]

/-- Concrete runs of the reset policy: a healthy in-place reset, the
reload-and-wait fallback after a failed in-place reset, the placement of the
reset events between the two destinations of a batch, and the absence of any
reset after a single (hence last) destination. -/
theorem run_reset_policy_witness :
    reset_form { inPlaceResetSucceeds := true, reloadFormReady := true } =
      (.ok (), [.formResetInPlace]) ∧
    reset_form { inPlaceResetSucceeds := false, reloadFormReady := true } =
      (.ok (), [.pageReloaded, .formReadyWaitSucceeded]) ∧
    (run from_city 1 5 [("DEL", okDestEnv), ("CCU", okDestEnv)]).records =
      { city := "DEL", events := runDest from_city "DEL" okDestEnv 1 5,
        gapEvents := [RunEvent.formResetInPlace] }
        :: (run from_city 1 5 [("CCU", okDestEnv)]).records ∧
    (run from_city 1 5 [("HYD", okDestEnv)]).records.map
      DestRecord.gapEvents = [[]] :=
  ⟨(run_reset_policy from_city 1 5).1
     { inPlaceResetSucceeds := true, reloadFormReady := true } rfl,
   (run_reset_policy from_city 1 5).2.1
     { inPlaceResetSucceeds := false, reloadFormReady := true } rfl rfl,
   (run_reset_policy from_city 1 5).2.2.1 "DEL" okDestEnv
     [("CCU", okDestEnv)] [RunEvent.formResetInPlace] rfl rfl,
   (run_reset_policy from_city 1 5).2.2.2 "HYD" okDestEnv⟩

/-- C9 (code observation): the temporary profile directory is not removed on
every exit path.  When driver construction fails after `tempfile.mkdtemp()`
has already created the directory, the exception leaves the constructor —
which `main` calls before entering its `try/finally` — so `quit_driver`
never runs and the directory is left behind.  Moreover, even on the normal
teardown path, a failing `driver.quit()` jumps past the `shutil.rmtree` into
the handler, leaking the directory as well. -/
theorem temp_dir_leak :
    (LifeEvent.tempDirCreated ∈ (main setupFailLifeEnv).2 ∧
     LifeEvent.tempDirRemoved ∉ (main setupFailLifeEnv).2) ∧
    (LifeEvent.tempDirCreated ∈ (main quitFailLifeEnv).2 ∧
     LifeEvent.tempDirRemoved ∉ (main quitFailLifeEnv).2) := by
  decide

end FlightSearch
